import Mathlib

/-!
Verification of the PTW UNIDOS electrometer driver
(`src/PTWUnidos/PTWUnidos.py`) against its natural-language
specification.

The driver talks to the instrument over a line-oriented request/reply
channel.  We embed the driver shallowly: the instrument is an abstract
device `σ → String → σ × List Char` (new state, response line), a run
accumulates the list of command strings sent and the error messages the
driver prints, and every public operation of the Python class becomes a
Lean function over that model.  Position codes and response lines are
`List Char`, commands are `String`.
-/

namespace PTWUnidos

/-! ### Python string/number helpers used by the driver -/

/-- The ten decimal digit characters. -/
def digitChars : List Char :=
  ['0', '1', '2', '3', '4', '5', '6', '7', '8', '9']

/-- Numeric value of a digit character. -/
def digitVal (c : Char) : Nat := c.toNat - 48

/-- Accumulate the value of a digit list; `none` on a non-digit
(Python `int(...)` raising `ValueError`). -/
def parseDigitsAux : List Char → Nat → Option Nat
  | [], acc => some acc
  | c :: t, acc =>
      if c ∈ digitChars then parseDigitsAux t (acc * 10 + digitVal c) else none

/-- Parse a nonempty all-digit list as a natural number. -/
def parseDigits : List Char → Option Nat
  | [] => none
  | cs => parseDigitsAux cs 0

/-- Strip leading and trailing spaces (model of Python `str.strip()`
as performed by `int(...)`; the device protocol uses plain spaces). -/
def trimWs (cs : List Char) : List Char :=
  ((cs.dropWhile (· = ' ')).reverse.dropWhile (· = ' ')).reverse

/-- Model of Python `int(s)` on a response line: strip whitespace,
optional sign, then a nonempty digit string; `none` models the
`ValueError` raise. -/
def pyInt (cs : List Char) : Option Int :=
  match trimWs cs with
  | '-' :: rest => (parseDigits rest).map (fun n => -(n : Int))
  | '+' :: rest => (parseDigits rest).map (fun n => (n : Int))
  | s => (parseDigits s).map (fun n => (n : Int))

/-- Helper for `splitWs`: `cur` is the reversed current token. -/
def splitWsAux : List Char → List Char → List (List Char)
  | [], cur => if cur = [] then [] else [cur.reverse]
  | c :: t, cur =>
      if c = ' ' then
        if cur = [] then splitWsAux t [] else cur.reverse :: splitWsAux t []
      else splitWsAux t (c :: cur)

/-- Model of Python `str.split()` with no argument: split on runs of
whitespace, dropping empty tokens. -/
def splitWs (cs : List Char) : List (List Char) := splitWsAux cs []

/-- Binary digits (most significant first) of `n`; the first argument
is structural fuel, always called with fuel ≥ n. -/
def binCore : Nat → Nat → List Char → List Char
  | 0, _, acc => acc
  | f + 1, n, acc =>
      if n = 0 then acc
      else binCore f (n / 2) ((if n % 2 = 1 then '1' else '0') :: acc)

/-- Binary representation of a natural number, as Python `format(n, 'b')`. -/
def pyBin (n : Nat) : List Char := if n = 0 then ['0'] else binCore n n []

/-- Decimal digits (most significant first) of `n`; fueled like `binCore`. -/
def decCore : Nat → Nat → List Char → List Char
  | 0, _, acc => acc
  | f + 1, n, acc =>
      if n = 0 then acc
      else decCore f (n / 10) (Char.ofNat (48 + n % 10) :: acc)

/-- Decimal representation of a natural number, as Python `str(n)`. -/
def decChars (n : Nat) : List Char := if n = 0 then ['0'] else decCore n n []

/-- Decimal representation of an integer, sign included. -/
def intDecChars (t : Int) : List Char :=
  if t < 0 then '-' :: decChars t.natAbs else decChars t.toNat

/-- Model of Python `str.zfill(width)`: left-pad with zeros to `width`,
keeping a leading sign in front of the padding. -/
def pyZfill (width : Nat) (cs : List Char) : List Char :=
  match cs with
  | '-' :: rest => '-' :: (List.replicate (width - (rest.length + 1)) '0' ++ rest)
  | _ => List.replicate (width - cs.length) '0' ++ cs

/-- Model of the Python format `f'{n:08b}'` (line 112): binary digits of
`n`, zero-padded on the left to a minimum width of 8, sign in front of
the padding for negative `n`.  Values needing more than 8 binary digits
are NOT truncated. -/
def pyFormat08b (n : Int) : List Char :=
  pyZfill 8 (if n < 0 then '-' :: pyBin n.natAbs else pyBin n.toNat)

/-- The canonical 8-bit binary string of `n` (most significant bit
first), used to state what an 8-bit rendering of `n` must be. -/
def bits8 (n : Nat) : List Char :=
  (List.range 8).reverse.map (fun i => if n.testBit i then '1' else '0')

/-! ### The command channel and run model

The instrument is abstract: a device of state type `σ` maps a state and
a command line to a new state and a response line.  A run record `W`
carries the device state, the ordered list of command strings sent so
far, and the error messages the driver printed so far. -/

/-- A device: state transformer answering one command with one response
line (model of the pyvisa `query` round trip). -/
def DeviceFn (σ : Type) : Type := σ → String → σ × List Char

/-- State of one driver run: device state, commands sent, errors printed. -/
structure W (σ : Type) where
  dev : σ
  sent : List String
  errs : List String
  deriving Repr, DecidableEq

/-- Model of `_sendCommand` (lines 402-422): send `cmd`, read the
response; when `crossCheck` is set and the response is not the echo of
the command, print a protocol-mismatch message and continue. -/
def send (dev : DeviceFn σ) (w : W σ) (cmd : String) (crossCheck : Bool) :
    W σ × List Char :=
  let p := dev w.dev cmd
  let es := if crossCheck ∧ p.2 ≠ cmd.toList
    then ["Error sending command: " ++ cmd] else []
  (⟨p.1, w.sent ++ [cmd], w.errs ++ es⟩, p.2)

/-- Send a list of commands in order, each with echo verification
(the list comprehensions of lines 284-285). -/
def sendSeq (dev : DeviceFn σ) (w : W σ) : List String → W σ
  | [] => w
  | c :: t => sendSeq dev (send dev w c true).1 t

/-- Record an error message the driver prints. -/
def reportErr (w : W σ) (msg : String) : W σ :=
  { w with errs := w.errs ++ [msg] }

/-- Python exceptions the embedded operations can raise.  `fuelOut` is a
model artifact standing for non-termination of the unbounded
root-seeking loop. -/
inductive PyErr where
  | assertionError (msg : String)
  | valueError
  | indexError
  | fuelOut
  deriving Repr, DecidableEq

instance {ε α : Type} [DecidableEq ε] [DecidableEq α] : DecidableEq (Except ε α) :=
  fun a b =>
    match a, b with
    | .ok x, .ok y =>
        if h : x = y then isTrue (by rw [h]) else isFalse (by simp [h])
    | .error x, .error y =>
        if h : x = y then isTrue (by rw [h]) else isFalse (by simp [h])
    | .ok _, .error _ => isFalse (by simp)
    | .error _, .ok _ => isFalse (by simp)

/-! ### Menu navigation (`goToSetupPosition`, lines 166-177) -/

/-- The branch logic of lines 173-175: given the reported position code
`r` (with `r ≠ "00"`), which single command the loop body issues, if
any.  `r.get? i ≠ some c` mirrors the Python character comparisons
`r[i] != c` on the codes the loop actually sees. -/
def navCommand (r : List Char) : Option String :=
  if 2 < r.length then some "C"
  else if r[0]? ≠ some '0' then some "M0"
  else if r[1]? ≠ some '0' then some "U"
  else none

/-- The `while r != "00"` loop of lines 171-177, with explicit fuel:
issue the branch command (if any), re-query the position with `"?W"`,
repeat.  Returns the final run state and the final reported position;
`none` models the loop not terminating within `fuel` iterations. -/
def goLoop (dev : DeviceFn σ) : Nat → W σ → List Char → Option (W σ × List Char)
  | fuel, w, r =>
    if r = ['0', '0'] then some (w, r)
    else
      match fuel with
      | 0 => none
      | fuel + 1 =>
        let w1 := match navCommand r with
          | some c => (send dev w c true).1
          | none => w
        let p := send dev w1 "?W" false
        goLoop dev fuel p.1 p.2

/-- Model of `goToSetupPosition` (lines 166-177): query the position
via `getPosition` (`"?W"`, no echo check, line 144), then run the
root-seeking loop. -/
def goToSetupPosition (dev : DeviceFn σ) (fuel : Nat) (w : W σ) :
    Option (W σ × List Char) :=
  let p := send dev w "?W" false
  goLoop dev fuel p.1 p.2

/-! ### Parameter operations -/

/-- The fixed voltage list of line 81. -/
def listOfVoltages : List Int :=
  [0, 50, 100, 150, 200, 250, 300, 350, 400]

/-- Index of the first occurrence of `v`; `none` models the
`ValueError` raised by Python `list.index` when `v` is absent. -/
def idxOf? : List Int → Int → Option Nat
  | [], _ => none
  | a :: t, v => if a = v then some 0 else (idxOf? t v).map (· + 1)

/-- Model of `getFlags` (lines 109-112): query `"?F"` without echo
check, parse the response as an integer, render it with `f'{n:08b}'`. -/
def getFlags (dev : DeviceFn σ) (w : W σ) :
    Except (PyErr × W σ) (W σ × List Char) :=
  let p := send dev w "?F" false
  match pyInt p.2 with
  | none => .error (.valueError, p.1)
  | some n => .ok (p.1, pyFormat08b n)

/-- Model of `setRange` (lines 179-203): assert the range name is one
of the three exact-case names, map it to the selector digit with the
case-tolerant chain of lines 198-200, send `"R{x}"` once.  On
assertion failure the run state is returned unchanged: nothing was
sent. -/
def setRange (dev : DeviceFn σ) (range : String) (w : W σ) :
    Except (PyErr × W σ) (W σ) :=
  if range = "Low" ∨ range = "Medium" ∨ range = "High" then
    -- Lines 198-200; under the assert the last branch is exactly High.
    let x : Nat :=
      if range = "Low" ∨ range = "low" then 0
      else if range = "Medium" ∨ range = "medium" then 1
      else 2
    .ok (send dev w ("R" ++ toString x) true).1
  else .error (.assertionError "Range not recognised", w)

/-- Model of `getVoltage` (lines 228-258): navigate to the setup
position, drill in with `"D" "E" "D" "E"`, read the value line with
`"V"`, optionally navigate back, then parse the first
whitespace-separated token as an integer. -/
def getVoltage (dev : DeviceFn σ) (fuel : Nat) (goToSetup : Bool) (w : W σ) :
    Except (PyErr × W σ) (W σ × Int) :=
  match goToSetupPosition dev fuel w with
  | none => .error (.fuelOut, w)
  | some q =>
    let w2 := (send dev q.1 "D" true).1
    let w3 := (send dev w2 "E" true).1
    let w4 := (send dev w3 "D" true).1
    let w5 := (send dev w4 "E" true).1
    let p := send dev w5 "V" false
    let after : Option (W σ) :=
      if goToSetup then (goToSetupPosition dev fuel p.1).map (·.1)
      else some p.1
    match after with
    | none => .error (.fuelOut, p.1)
    | some w7 =>
      match (splitWs p.2).head? with
      | none => .error (.indexError, w7)
      | some tok =>
        match pyInt tok with
        | none => .error (.valueError, w7)
        | some v => .ok (w7, v)

/-- The stepping commands of lines 283-285: `move` copies of `"U"` when
the target index is above the current one, `|move|` copies of `"D"`
when it is below, nothing when they coincide. -/
def voltageStepCmds (currentIndex newIndex : Nat) : List String :=
  let move : Int := (newIndex : Int) - (currentIndex : Int)
  if 0 < move then List.replicate move.toNat "U"
  else if move < 0 then List.replicate (-move).toNat "D"
  else []

/-- Lines 280-296 of `setVoltage`, after the current voltage `aVoltage`
has been read back: compute both indices, send the stepping commands,
re-read with `"V"` and compare the first token with the requested
voltage; on mismatch print the abort message, on match confirm with
`"E"` (and `"G"` when `"E"` is not echoed); finally navigate back to
the setup position. -/
def setVoltageAfterRead (dev : DeviceFn σ) (fuel : Nat) (voltage : Int)
    (w1 : W σ) (aVoltage : Int) : Except (PyErr × W σ) (W σ) :=
  match idxOf? listOfVoltages aVoltage with
  | none => .error (.valueError, w1)
  | some currentVoltageIndex =>
    match idxOf? listOfVoltages voltage with
    | none => .error (.valueError, w1)
    | some newVoltageIndex =>
      let w2 := sendSeq dev w1 (voltageStepCmds currentVoltageIndex newVoltageIndex)
      let p := send dev w2 "V" false
      match (splitWs p.2).head? with
      | none => .error (.indexError, p.1)
      | some tok =>
        match pyInt tok with
        | none => .error (.valueError, p.1)
        | some rv =>
          let w4 :=
            if voltage ≠ rv then
              reportErr p.1 "Error setting the requested voltage, operation aborted."
            else
              let q := send dev p.1 "E" false
              if q.2 ≠ ['E'] then (send dev q.1 "G" false).1 else q.1
          match goToSetupPosition dev fuel w4 with
          | none => .error (.fuelOut, w4)
          | some q => .ok q.1

/-- Model of `setVoltage` (lines 260-296): assert the voltage is in the
allowed list (nothing sent otherwise), read the current voltage without
returning to the setup position, then run the stepping/verification
tail. -/
def setVoltage (dev : DeviceFn σ) (fuel : Nat) (voltage : Int) (w : W σ) :
    Except (PyErr × W σ) (W σ) :=
  if voltage ∈ listOfVoltages then
    match getVoltage dev fuel false w with
    | .error e => .error e
    | .ok (w1, aVoltage) => setVoltageAfterRead dev fuel voltage w1 aVoltage
  else .error (.assertionError (toString voltage ++ " V is not a valid value of voltage"), w)

/-- The command literal of line 361: the integration time rendered in
decimal and zero-filled to 4 characters. -/
def timeLiteral (t : Int) : String := ⟨pyZfill 4 (intDecChars t)⟩

/-- Model of `setIntegrationTime` (lines 336-366): assert
`6 ≤ t ≤ 9999` (nothing sent otherwise; the Python `type(...) is int`
conjunct holds by typing), navigate to the setup position, enter the
setup menu twice, send the zero-filled time, confirm with `"E"`,
re-read with `"V"` and print an error message on mismatch.  The
operation returns without navigating back to the setup position. -/
def setIntegrationTime (dev : DeviceFn σ) (fuel : Nat) (t : Int) (w : W σ) :
    Except (PyErr × W σ) (W σ) :=
  if 6 ≤ t ∧ t ≤ 9999 then
    match goToSetupPosition dev fuel w with
    | none => .error (.fuelOut, w)
    | some q =>
      let w2 := (send dev q.1 "E" true).1
      let w3 := (send dev w2 "E" true).1
      let w4 := (send dev w3 (timeLiteral t) true).1
      let w5 := (send dev w4 "E" true).1
      let p := send dev w5 "V" false
      match pyInt p.2 with
      | none => .error (.valueError, p.1)
      | some rv =>
        .ok (if t ≠ rv then
          reportErr p.1 "Error setting the integration time, operation aborted."
        else p.1)
  else .error (.assertionError (toString t ++ " s is not a valid value of integration time"), w)

/-- Lines 376-378 of `integrate`: query the position, compare its FIRST
CHARACTER with the two-character string `"00"`, and run the
root-seeking navigation when they differ.  The returned boolean records
whether the navigation was invoked. -/
def integrateNavPhase (dev : DeviceFn σ) (fuel : Nat) (w : W σ) :
    Except (PyErr × W σ) (W σ × Bool) :=
  let p := send dev w "?W" false
  match p.2.head? with
  | none => .error (.indexError, p.1)
  | some c =>
    if [c] ≠ ['0', '0'] then
      match goToSetupPosition dev fuel p.1 with
      | none => .error (.fuelOut, p.1)
      | some q => .ok (q.1, true)
    else .ok (p.1, false)

/-! ### Session shutdown (`close`, lines 446-450)

The transport lives outside `src/`; we model it as a channel that
either answers a query or raises a transport error, with an explicit
released/closed flag. -/

/-- A serial channel: `fails` says whether a query raises a transport
error, `closed` whether the transport has been released. -/
structure Chan where
  fails : Bool
  closed : Bool
  deriving Repr, DecidableEq

/-- Model of `close` (lines 446-450): send `"T1"`, then release the
transport.  The Python body is two sequential statements with no
`try`/`finally`: when the send raises, the exception propagates and
`serial.close()` is never reached.  Returns the final channel, the
commands whose send was attempted, and whether an exception escaped. -/
def close (c : Chan) : Chan × List String × Bool :=
  if c.fails then (c, ["T1"], true)
  else ({ c with closed := true }, ["T1"], false)

/-! ### Simulated devices

Modelled from the spec: the instrument firmware is not part of the
repository; the spec describes its observable protocol (position codes:
the root is the two-character all-zero code, longer codes are deeper
submenus; `"C"` goes one level shallower, `"M0"` jumps to the top-level
zero branch, the remaining key moves the sub-branch digit one step
toward zero; `"E"` enters a submenu) and asks for a simulated device
that moves exactly one level per issued command. -/

/-- Predecessor of a digit character (identity on `'0'` and non-digits). -/
def decDigitChar : Char → Char
  | '1' => '0' | '2' => '1' | '3' => '2' | '4' => '3' | '5' => '4'
  | '6' => '5' | '7' => '6' | '8' => '7' | '9' => '8' | c => c

/-- Replace the first character of a position code by `'0'`. -/
def zeroFirst : List Char → List Char
  | [] => []
  | _ :: t => '0' :: t

/-- Move the second character of a position code one digit down. -/
def decSecond : List Char → List Char
  | a :: b :: t => a :: decDigitChar b :: t
  | l => l

/-- Simulated navigation device: the state is the current position
code; `"?W"` reports it; `"C"`, `"M0"` and `"U"` each move one level;
every command is answered by its echo except the position query. -/
def simNav : DeviceFn (List Char) := fun pos cmd =>
  if cmd = "?W" then (pos, pos)
  else if cmd = "C" then (pos.dropLast, cmd.toList)
  else if cmd = "M0" then (zeroFirst pos, cmd.toList)
  else if cmd = "U" then (decSecond pos, cmd.toList)
  else (pos, cmd.toList)

/-- Simulated device for the integration-time menu: `"E"` enters a
submenu (one level deeper), `"V"` reports the stored integration time
`10`, `"?W"` reports the position, everything else echoes in place. -/
def simSetup : DeviceFn (List Char) := fun pos cmd =>
  if cmd = "?W" then (pos, pos)
  else if cmd = "E" then (pos ++ ['0'], cmd.toList)
  else if cmd = "V" then (pos, ['1', '0'])
  else (pos, cmd.toList)

/-- Scripted device: answers successive commands with the successive
entries of a fixed response list, echoing once the script is spent. -/
def scriptDev : DeviceFn (List (List Char)) := fun s cmd =>
  match s with
  | [] => ([], cmd.toList)
  | r :: t => (t, r)

/-- A fresh run state over a device state. -/
def start (s : σ) : W σ := ⟨s, [], []⟩

/-- Well-formed position codes: at least two characters, all digits. -/
def wfCode (r : List Char) : Prop :=
  2 ≤ r.length ∧ ∀ c ∈ r, c ∈ digitChars

instance : DecidablePred wfCode := fun r =>
  inferInstanceAs (Decidable (2 ≤ r.length ∧ ∀ c ∈ r, c ∈ digitChars))

/-- Termination measure for the root-seeking loop on the simulated
device: levels of depth beyond the root, plus one for a nonzero leading
digit, plus the value of the second digit. -/
def navMeasure (r : List Char) : Nat :=
  (r.length - 2) + (if r[0]? = some '0' then 0 else 1) +
    (match r[1]? with | some c => digitVal c | none => 0)

/-- Index of a voltage in the allowed list (0 when absent; total
wrapper around `idxOf?` used to state the stepping property). -/
def vIdx (v : Int) : Nat := (idxOf? listOfVoltages v).getD 0

/-- Device script for the worked `setVoltage` example: current voltage
100, requested voltage 300; responses, in order, for the commands
`?W D E D E V U U U U V E ?W`. -/
def c2Script : List (List Char) :=
  [['0', '0'], ['D'], ['E'], ['D'], ['E'], ['1', '0', '0'],
   ['U'], ['U'], ['U'], ['U'], ['3', '0', '0'], ['E'], ['0', '0']]

/-- Device script for the mismatching `setVoltage` run: current voltage
100, requested voltage 300, but the verification read answers `"250"`;
responses, in order, for the commands `?W D E D E V U U U U V ?W`. -/
def c6Script : List (List Char) :=
  [['0', '0'], ['D'], ['E'], ['D'], ['E'], ['1', '0', '0'],
   ['U'], ['U'], ['U'], ['U'], ['2', '5', '0'], ['0', '0']]

/-- Run state carried by an operation result, on both the normal and
the raising path. -/
def finalW : Except (PyErr × W σ) (W σ) → W σ
  | .ok w => w
  | .error (_, w) => w

/-! ## Theorems -/

/-! ### Bookkeeping lemmas for the run model -/

theorem send_dev (dev : DeviceFn σ) (w : W σ) (cmd : String) (b : Bool) :
    (send dev w cmd b).1.dev = (dev w.dev cmd).1 := rfl

theorem send_resp (dev : DeviceFn σ) (w : W σ) (cmd : String) (b : Bool) :
    (send dev w cmd b).2 = (dev w.dev cmd).2 := rfl

theorem send_sent (dev : DeviceFn σ) (w : W σ) (cmd : String) (b : Bool) :
    (send dev w cmd b).1.sent = w.sent ++ [cmd] := rfl

/-- Measure of a two-or-more character code, in destructured form. -/
theorem navMeasure_cons2 (a b : Char) (l : List Char) :
    navMeasure (a :: b :: l) = l.length + (if a = '0' then 0 else 1) + digitVal b := by
  by_cases ha : a = '0' <;> simp [navMeasure, ha]

/-- A digit other than `'0'` steps down to a digit of value one less. -/
theorem digit_dec_facts {b : Char} (hb : b ∈ digitChars) (hb0 : b ≠ '0') :
    decDigitChar b ∈ digitChars ∧ digitVal (decDigitChar b) + 1 = digitVal b := by
  fin_cases hb
  · exact absurd rfl hb0
  all_goals decide

/-- A well-formed code other than the root has positive measure. -/
theorem navMeasure_pos {r : List Char} (hwf : wfCode r) (hr : r ≠ ['0', '0']) :
    1 ≤ navMeasure r := by
  obtain ⟨hlen, hdig⟩ := hwf
  by_cases hl : 2 < r.length
  · unfold navMeasure; omega
  · have hl2 : r.length = 2 := by omega
    obtain ⟨a, b, rfl⟩ := List.length_eq_two.mp hl2
    rw [navMeasure_cons2]
    by_cases ha : a = '0'
    · subst ha
      have hb : b ≠ '0' := by rintro rfl; exact hr rfl
      have : 1 ≤ digitVal b := by
        have hbd : b ∈ digitChars := hdig b (by simp)
        fin_cases hbd
        · exact absurd rfl hb
        all_goals decide
      omega
    · rw [if_neg ha]; omega

/-- One iteration of the root-seeking loop on the simulated device:
there is a command to issue, and issuing it keeps the position
well-formed and decreases the measure by exactly one. -/
theorem navStep_sim {r : List Char} (hwf : wfCode r) (hr : r ≠ ['0', '0']) :
    ∃ c, navCommand r = some c ∧ wfCode (simNav r c).1 ∧
      navMeasure (simNav r c).1 + 1 = navMeasure r := by
  obtain ⟨hlen, hdig⟩ := hwf
  by_cases hl : 2 < r.length
  · rcases r with _ | ⟨a, _ | ⟨b, _ | ⟨x, t⟩⟩⟩
    · simp at hlen
    · simp at hl
    · simp at hl
    · refine ⟨"C", by unfold navCommand; rw [if_pos hl], ?_, ?_⟩
      · have hstep : (simNav (a :: b :: x :: t) "C").1 = a :: b :: (x :: t).dropLast := rfl
        rw [hstep]
        refine ⟨by simp, ?_⟩
        intro c hc
        simp only [List.mem_cons] at hc
        rcases hc with rfl | hc
        · exact hdig c (by simp)
        · rcases hc with rfl | hc
          · exact hdig c (by simp)
          · exact hdig c (List.mem_cons_of_mem _ (List.mem_cons_of_mem _
              ((List.dropLast_sublist (x :: t)).subset hc)))
      · have hstep : (simNav (a :: b :: x :: t) "C").1 = a :: b :: (x :: t).dropLast := rfl
        rw [hstep, navMeasure_cons2, navMeasure_cons2, List.length_dropLast]
        by_cases ha : a = '0' <;> simp [ha] <;> omega
  · have hl2 : r.length = 2 := by omega
    obtain ⟨a, b, rfl⟩ := List.length_eq_two.mp hl2
    by_cases ha : a = '0'
    · subst ha
      have hb : b ≠ '0' := by rintro rfl; exact hr rfl
      have hfacts := digit_dec_facts (hdig b (by simp)) hb
      refine ⟨"U", ?_, ?_, ?_⟩
      · unfold navCommand
        rw [if_neg hl, if_neg (by simp), if_pos (by simp [hb])]
      · have hstep : (simNav ['0', b] "U").1 = ['0', decDigitChar b] := rfl
        rw [hstep]
        refine ⟨by simp, ?_⟩
        intro c hc
        simp only [List.mem_cons] at hc
        rcases hc with rfl | hc
        · decide
        · rcases hc with rfl | hc
          · exact hfacts.1
          · simp at hc
      · have hstep : (simNav ['0', b] "U").1 = ['0', decDigitChar b] := rfl
        rw [hstep, navMeasure_cons2, navMeasure_cons2]
        have h2 := hfacts.2
        simp
        omega
    · refine ⟨"M0", ?_, ?_, ?_⟩
      · unfold navCommand
        rw [if_neg hl, if_pos (by simp [ha])]
      · have hstep : (simNav [a, b] "M0").1 = ['0', b] := rfl
        rw [hstep]
        refine ⟨by simp, ?_⟩
        intro c hc
        simp only [List.mem_cons] at hc
        rcases hc with rfl | hc
        · decide
        · rcases hc with rfl | hc
          · exact hdig c (by simp)
          · simp at hc
      · have hstep : (simNav [a, b] "M0").1 = ['0', b] := rfl
        rw [hstep, navMeasure_cons2, navMeasure_cons2, if_neg ha]
        simp
        omega

/-- Unfolding of one non-root iteration of the root-seeking loop. -/
theorem goLoop_succ (dev : DeviceFn σ) (n : Nat) (w : W σ) (r : List Char)
    (hr : r ≠ ['0', '0']) :
    goLoop dev (n + 1) w r =
      goLoop dev n
        (send dev (match navCommand r with
          | some c => (send dev w c true).1
          | none => w) "?W" false).1
        (send dev (match navCommand r with
          | some c => (send dev w c true).1
          | none => w) "?W" false).2 := by
  rw [goLoop, if_neg hr]

/-- Whenever the root-seeking loop returns, the last reported position
it saw — the only way out of the `while` — is the root code `"00"`. -/
theorem goLoop_exit (dev : DeviceFn σ) :
    ∀ (fuel : Nat) (w : W σ) (r : List Char) (w' : W σ) (rf : List Char),
      goLoop dev fuel w r = some (w', rf) → rf = ['0', '0'] := by
  intro fuel
  induction fuel with
  | zero =>
    intro w r w' rf h
    rw [goLoop] at h
    split at h
    · next hcond =>
      simp only [Option.some.injEq, Prod.mk.injEq] at h
      rw [← h.2]; exact hcond
    · simp at h
  | succ n ih =>
    intro w r w' rf h
    rw [goLoop] at h
    split at h
    · next hcond =>
      simp only [Option.some.injEq, Prod.mk.injEq] at h
      rw [← h.2]; exact hcond
    · exact ih _ _ _ _ h

/-- Termination of the root-seeking loop on the simulated device:
`navMeasure` of the starting code bounds the number of iterations. -/
theorem goLoop_sim_term :
    ∀ (fuel : Nat) (r : List Char) (w : W (List Char)), wfCode r → w.dev = r →
      navMeasure r ≤ fuel →
      ∃ w', goLoop simNav fuel w r = some (w', ['0', '0']) ∧ w'.dev = ['0', '0'] := by
  intro fuel
  induction fuel with
  | zero =>
    intro r w hwf hdev hm
    by_cases hr : r = ['0', '0']
    · subst hr
      exact ⟨w, by rw [goLoop]; simp, hdev⟩
    · exact absurd hm (by have := navMeasure_pos hwf hr; omega)
  | succ n ih =>
    intro r w hwf hdev hm
    by_cases hr : r = ['0', '0']
    · subst hr
      exact ⟨w, by rw [goLoop]; simp, hdev⟩
    · obtain ⟨c, hc, hwf', hmeas⟩ := navStep_sim hwf hr
      rw [goLoop_succ simNav n w r hr]
      simp only [hc]
      have hd1 : (send simNav w c true).1.dev = (simNav r c).1 := by
        rw [send_dev, hdev]
      have hresp : (send simNav (send simNav w c true).1 "?W" false).2 = (simNav r c).1 := by
        rw [send_resp, hd1]; rfl
      have hdev2 : (send simNav (send simNav w c true).1 "?W" false).1.dev = (simNav r c).1 := by
        rw [send_dev, hd1]; rfl
      rw [hresp]
      exact ih (simNav r c).1 _ hwf' hdev2 (by omega)

/-- Termination of `goToSetupPosition` on the simulated device, from a
fresh run at any well-formed position code. -/
theorem goToSetup_sim_term {r : List Char} (hwf : wfCode r) :
    ∃ w', goToSetupPosition simNav (navMeasure r) (start r) = some (w', ['0', '0']) ∧
      w'.dev = ['0', '0'] := by
  simp only [goToSetupPosition]
  exact goLoop_sim_term (navMeasure r) r _ hwf rfl le_rfl

/-- C1, counterexample.  The claim says the root-seeking loop issues
`"D"` on a two-character code with zero first digit and nonzero second
digit; on the reported code `"01"` the loop body of lines 171-177
issues `"U"`, not `"D"`. -/
theorem c1_counterexample :
    navCommand ['0', '1'] = some "U" ∧ navCommand ['0', '1'] ≠ some "D" := by
  decide

/-- C1, amended.  In the root-seeking procedure, for every reported
position code that is exactly two characters long with a zero first
digit and a nonzero second digit, the command issued for that step is
`"U"` (step up once). -/
theorem c1_shallow_step_is_U (r : List Char) (h2 : r.length = 2)
    (h0 : r[0]? = some '0') (h1 : r[1]? ≠ some '0') :
    navCommand r = some "U" := by
  unfold navCommand
  rw [if_neg (by omega), if_neg (by simp [h0]), if_pos h1]

/-- C1, witness for the amended theorem at the concrete code `"01"`. -/
theorem c1_shallow_step_is_U_witness : navCommand ['0', '1'] = some "U" :=
  c1_shallow_step_is_U ['0', '1'] (by decide) (by decide) (by decide)

/-- C2.  For all voltages `v1`, `v2` in the allowed list, the stepping
commands issued by `setVoltage` with current read-back `v1` and target
`v2` are exactly `|index(v2) - index(v1)|` copies of `"U"` when
`index(v2) > index(v1)` and of `"D"` when `index(v2) < index(v1)`
(zero commands when the indices agree, since a zero-count replicate is
empty); and on the worked example — current voltage 100 (index 2),
target 300 (index 6) — the full `setVoltage` run issues exactly four
`"U"` commands followed by the verifying `"V"` read whose first token
`"300"` matches, after which it confirms and navigates back. -/
theorem c2_voltage_stepping :
    (∀ v1 ∈ listOfVoltages, ∀ v2 ∈ listOfVoltages,
      voltageStepCmds (vIdx v1) (vIdx v2) =
        if vIdx v1 < vIdx v2 then List.replicate (vIdx v2 - vIdx v1) "U"
        else List.replicate (vIdx v1 - vIdx v2) "D") ∧
    vIdx 100 = 2 ∧ vIdx 300 = 6 ∧
    setVoltage scriptDev 1 300 (start c2Script) =
      .ok ⟨[], ["?W", "D", "E", "D", "E", "V", "U", "U", "U", "U", "V", "E", "?W"], []⟩ := by
  refine ⟨by decide, by decide, by decide, by decide⟩

/-- C2, witness: the stepping property instantiated at current voltage
100 and target 300. -/
theorem c2_voltage_stepping_witness :
    voltageStepCmds (vIdx 100) (vIdx 300) =
      if vIdx 100 < vIdx 300 then List.replicate (vIdx 300 - vIdx 100) "U"
      else List.replicate (vIdx 100 - vIdx 300) "D" :=
  c2_voltage_stepping.1 100 (by decide) 300 (by decide)

/-- C3, counterexample.  The claim says `getFlags` always returns an
8-character string (zero-padded or truncated to 8 bits); on the device
response `"256"` the format `f'{n:08b}'` of line 112 yields the
9-character string `"100000000"` — no truncation happens. -/
theorem c3_counterexample :
    getFlags scriptDev (start [['2', '5', '6']]) =
      .ok (⟨[], ["?F"], []⟩, ['1', '0', '0', '0', '0', '0', '0', '0', '0']) ∧
    (pyFormat08b 256).length ≠ 8 := by
  decide

set_option maxRecDepth 4000 in
/-- C3, amended.  For every device response parsing to an integer `n`
with `0 ≤ n < 256`, `getFlags` returns exactly the 8-character
zero-padded binary representation of `n`; in particular the response
`"5"` yields `"00000101"`. -/
theorem c3_flags_8bit :
    (∀ n : Nat, n < 256 →
      pyFormat08b (n : Int) = bits8 n ∧ (pyFormat08b (n : Int)).length = 8) ∧
    getFlags scriptDev (start [['5']]) =
      .ok (⟨[], ["?F"], []⟩, ['0', '0', '0', '0', '0', '1', '0', '1']) := by
  exact ⟨by decide, by decide⟩

/-- C3, witness for the amended theorem at `n = 5`. -/
theorem c3_flags_8bit_witness :
    pyFormat08b (5 : Int) = bits8 5 ∧ (pyFormat08b (5 : Int)).length = 8 :=
  c3_flags_8bit.1 5 (by decide)

/-- C4, counterexample.  The claim says `setRange` accepts the range
names case-insensitively; the assert of line 195 compares against the
exact-case list, so `setRange("low")` raises the invalid-input error
and sends nothing, instead of sending `"R0"`. -/
theorem c4_counterexample :
    setRange scriptDev "low" (start []) =
      .error (.assertionError "Range not recognised", start []) := by
  decide

/-- C4, amended.  `setRange` accepts exactly the case-sensitive names
`"Low"`, `"Medium"`, `"High"`, maps them to selectors 0/1/2 and sends
the single command `"R{selector}"`; every other string — including
lowercase spellings and `"Purple"` — raises the invalid-input
assertion with no command sent (the run state is returned unchanged). -/
theorem c4_setRange_case_sensitive :
    setRange scriptDev "Low" (start []) = .ok ⟨[], ["R0"], []⟩ ∧
    setRange scriptDev "Medium" (start []) = .ok ⟨[], ["R1"], []⟩ ∧
    setRange scriptDev "High" (start []) = .ok ⟨[], ["R2"], []⟩ ∧
    ∀ s : String, s ∉ (["Low", "Medium", "High"] : List String) →
      ∀ (σ : Type) (dev : DeviceFn σ) (w : W σ),
        setRange dev s w = .error (.assertionError "Range not recognised", w) := by
  refine ⟨by decide, by decide, by decide, ?_⟩
  intro s hs σ dev w
  simp only [List.mem_cons, List.mem_singleton, not_or] at hs
  unfold setRange
  rw [if_neg (by tauto)]

/-- C4, witness for the amended theorem at the rejected input
`"Purple"`. -/
theorem c4_setRange_case_sensitive_witness :
    setRange scriptDev "Purple" (start []) =
      .error (.assertionError "Range not recognised", start []) :=
  c4_setRange_case_sensitive.2.2.2 "Purple" (by decide) _ scriptDev (start [])

/-- C5.  Each of `setVoltage`, `setRange` and `setIntegrationTime`
rejects every value outside its declared domain with the assertion
error of its first line, before any device interaction: the run state
is returned unchanged, so the list of sent commands does not grow. -/
theorem c5_domain_rejection :
    (∀ (σ : Type) (dev : DeviceFn σ) (fuel : Nat) (v : Int) (w : W σ),
      v ∉ listOfVoltages →
      setVoltage dev fuel v w =
        .error (.assertionError (toString v ++ " V is not a valid value of voltage"), w)) ∧
    (∀ (σ : Type) (dev : DeviceFn σ) (s : String) (w : W σ),
      s ∉ (["Low", "Medium", "High"] : List String) →
      setRange dev s w = .error (.assertionError "Range not recognised", w)) ∧
    (∀ (σ : Type) (dev : DeviceFn σ) (fuel : Nat) (t : Int) (w : W σ),
      ¬(6 ≤ t ∧ t ≤ 9999) →
      setIntegrationTime dev fuel t w =
        .error (.assertionError (toString t ++ " s is not a valid value of integration time"), w)) := by
  refine ⟨?_, ?_, ?_⟩
  · intro σ dev fuel v w hv
    unfold setVoltage
    rw [if_neg hv]
  · intro σ dev s w hs
    simp only [List.mem_cons, List.mem_singleton, not_or] at hs
    unfold setRange
    rw [if_neg (by tauto)]
  · intro σ dev fuel t w ht
    unfold setIntegrationTime
    rw [if_neg ht]

/-- C5, witness: the three rejections at the concrete out-of-domain
inputs 77 V, `"Purple"` and 5 s, each with an unchanged (empty) list
of sent commands. -/
theorem c5_domain_rejection_witness :
    setVoltage scriptDev 1 77 (start []) =
      .error (.assertionError "77 V is not a valid value of voltage", start []) ∧
    setRange scriptDev "Purple" (start []) =
      .error (.assertionError "Range not recognised", start []) ∧
    setIntegrationTime scriptDev 1 5 (start []) =
      .error (.assertionError "5 s is not a valid value of integration time", start []) :=
  ⟨c5_domain_rejection.1 _ scriptDev 1 77 (start []) (by decide),
   c5_domain_rejection.2.1 _ scriptDev "Purple" (start []) (by decide),
   c5_domain_rejection.2.2 _ scriptDev 1 5 (start []) (by decide)⟩

/-- C8, counterexample.  The claim says the transport is released on
every exit path of `close()`, including the one where sending `"T1"`
fails; on a channel whose query raises, the exception propagates out of
the first statement of lines 446-450 and `serial.close()` is never
reached: the transport stays unreleased. -/
theorem c8_counterexample :
    (close ⟨true, false⟩).2.2 = true ∧ (close ⟨true, false⟩).1.closed = false := by
  decide

/-- C8, amended.  `close()` first sends the terminate-session command
`"T1"` and then releases the transport; the release happens only on
the path where the send succeeds — when the send raises a transport
error, the exception propagates and the channel is left exactly as it
was, unreleased. -/
theorem c8_close_release (c : Chan) :
    (close c).2.1 = ["T1"] ∧
    (c.fails = false → (close c).1.closed = true ∧ (close c).2.2 = false) ∧
    (c.fails = true → (close c).1 = c ∧ (close c).2.2 = true) := by
  rcases c with ⟨fails, closed⟩
  cases fails <;> simp [close]

/-- C8, witness for the amended theorem on a healthy and on a failing
channel. -/
theorem c8_close_release_witness :
    ((close ⟨false, false⟩).1.closed = true ∧ (close ⟨false, false⟩).2.2 = false) ∧
    ((close ⟨true, false⟩).1 = ⟨true, false⟩ ∧ (close ⟨true, false⟩).2.2 = true) :=
  ⟨(c8_close_release ⟨false, false⟩).2.1 rfl,
   (c8_close_release ⟨true, false⟩).2.2 rfl⟩

/-- C10.  The at-Root guard of `integrate` (line 377) compares the
one-character string `position[0]` with the two-character string
`"00"`, which can never be equal; hence whenever the navigation phase
of `integrate` completes, the root-seeking navigation was invoked —
even when the device already reports the Root position. -/
theorem c10_integrate_guard_vacuous :
    (∀ c : Char, ([c] : List Char) ≠ ['0', '0']) ∧
    (∀ (σ : Type) (dev : DeviceFn σ) (fuel : Nat) (w w' : W σ) (b : Bool),
      integrateNavPhase dev fuel w = .ok (w', b) → b = true) := by
  constructor
  · intro c h
    simpa using congrArg List.length h
  · intro σ dev fuel w w' b h
    simp only [integrateNavPhase] at h
    split at h
    · exact absurd h (by simp)
    · split at h
      · split at h
        · exact absurd h (by simp)
        · simp only [Except.ok.injEq, Prod.mk.injEq] at h
          exact h.2.symm
      · next hcond => simp at hcond

/-- C10, witness: on the simulated device already at Root, the
navigation phase completes and the navigation was nevertheless
invoked. -/
theorem c10_integrate_guard_vacuous_witness :
    integrateNavPhase simNav 1 (start ['0', '0']) =
      .ok (⟨['0', '0'], ["?W", "?W"], []⟩, true) ∧ true = true :=
  ⟨by decide,
   c10_integrate_guard_vacuous.2 _ simNav 1 (start ['0', '0'])
     ⟨['0', '0'], ["?W", "?W"], []⟩ true (by decide)⟩

/-! ### Trace lemmas for the navigation loop and command sequences -/

theorem navCommand_mem {r : List Char} {c : String} (h : navCommand r = some c) :
    c = "C" ∨ c = "M0" ∨ c = "U" := by
  unfold navCommand at h
  split_ifs at h
  · exact Or.inl (Option.some.inj h).symm
  · exact Or.inr (Or.inl (Option.some.inj h).symm)
  · exact Or.inr (Or.inr (Option.some.inj h).symm)

theorem send_errs (dev : DeviceFn σ) (w : W σ) (cmd : String) (b : Bool) :
    ∃ e, (send dev w cmd b).1.errs = w.errs ++ e := ⟨_, rfl⟩

theorem reportErr_sent (w : W σ) (m : String) : (reportErr w m).sent = w.sent := rfl

theorem reportErr_errs (w : W σ) (m : String) :
    (reportErr w m).errs = w.errs ++ [m] := rfl

theorem sendSeq_sent (dev : DeviceFn σ) :
    ∀ (cs : List String) (w : W σ), (sendSeq dev w cs).sent = w.sent ++ cs := by
  intro cs
  induction cs with
  | nil => intro w; simp [sendSeq]
  | cons c t ih =>
    intro w
    rw [sendSeq, ih, send_sent]
    simp

theorem sendSeq_errs (dev : DeviceFn σ) :
    ∀ (cs : List String) (w : W σ), ∃ e, (sendSeq dev w cs).errs = w.errs ++ e := by
  intro cs
  induction cs with
  | nil => intro w; exact ⟨[], by simp [sendSeq]⟩
  | cons c t ih =>
    intro w
    obtain ⟨e, he⟩ := ih (send dev w c true).1
    obtain ⟨e0, he0⟩ := send_errs dev w c true
    exact ⟨e0 ++ e, by rw [sendSeq, he, he0]; simp⟩

/-- The root-seeking loop only ever sends the navigation vocabulary:
`"C"`, `"M0"`, `"U"` and the position query `"?W"`. -/
theorem goLoop_sent (dev : DeviceFn σ) :
    ∀ (fuel : Nat) (w : W σ) (r : List Char) (w' : W σ) (rf : List Char),
      goLoop dev fuel w r = some (w', rf) →
      ∃ extra eextra, w'.sent = w.sent ++ extra ∧ w'.errs = w.errs ++ eextra ∧
        ∀ c ∈ extra, c = "C" ∨ c = "M0" ∨ c = "U" ∨ c = "?W" := by
  intro fuel
  induction fuel with
  | zero =>
    intro w r w' rf h
    rw [goLoop] at h
    split at h
    · simp only [Option.some.injEq, Prod.mk.injEq] at h
      rw [← h.1]
      exact ⟨[], [], by simp, by simp, by simp⟩
    · simp at h
  | succ n ih =>
    intro w r w' rf h
    rw [goLoop] at h
    split at h
    · simp only [Option.some.injEq, Prod.mk.injEq] at h
      rw [← h.1]
      exact ⟨[], [], by simp, by simp, by simp⟩
    · have h' : goLoop dev n
          (send dev (match navCommand r with
            | some c => (send dev w c true).1
            | none => w) "?W" false).1
          (send dev (match navCommand r with
            | some c => (send dev w c true).1
            | none => w) "?W" false).2 = some (w', rf) := h
      rcases hnc : navCommand r with _ | c
      · simp only [hnc] at h'
        obtain ⟨extra, eextra, hs, he, hmem⟩ := ih _ _ _ _ h'
        obtain ⟨e0, he0⟩ := send_errs dev w "?W" false
        refine ⟨"?W" :: extra, e0 ++ eextra, ?_, ?_, ?_⟩
        · rw [hs, send_sent]; simp
        · rw [he, he0]; simp
        · intro x hx
          simp only [List.mem_cons] at hx
          rcases hx with rfl | hx
          · simp
          · exact hmem x hx
      · simp only [hnc] at h'
        obtain ⟨extra, eextra, hs, he, hmem⟩ := ih _ _ _ _ h'
        obtain ⟨e0, he0⟩ := send_errs dev (send dev w c true).1 "?W" false
        obtain ⟨e1, he1⟩ := send_errs dev w c true
        refine ⟨c :: "?W" :: extra, e1 ++ (e0 ++ eextra), ?_, ?_, ?_⟩
        · rw [hs, send_sent, send_sent]; simp
        · rw [he, he0, he1]; simp
        · intro x hx
          simp only [List.mem_cons] at hx
          rcases hx with rfl | hx
          · rcases navCommand_mem hnc with h | h | h <;> simp [h]
          · rcases hx with rfl | hx
            · simp
            · exact hmem x hx

/-- Whenever `goToSetupPosition` returns, the last reported position is
the root code, and everything it sent was the leading position query
followed by navigation vocabulary. -/
theorem goToSetup_sent (dev : DeviceFn σ) (fuel : Nat) (w : W σ) (w' : W σ)
    (rf : List Char) (h : goToSetupPosition dev fuel w = some (w', rf)) :
    rf = ['0', '0'] ∧
    ∃ extra eextra, w'.sent = w.sent ++ "?W" :: extra ∧ w'.errs = w.errs ++ eextra ∧
      ∀ c ∈ extra, c = "C" ∨ c = "M0" ∨ c = "U" ∨ c = "?W" := by
  simp only [goToSetupPosition] at h
  refine ⟨goLoop_exit dev fuel _ _ _ _ h, ?_⟩
  obtain ⟨extra, eextra, hs, he, hmem⟩ := goLoop_sent dev fuel _ _ _ _ h
  obtain ⟨e0, he0⟩ := send_errs dev w "?W" false
  refine ⟨extra, e0 ++ eextra, ?_, ?_, hmem⟩
  · rw [hs, send_sent]; simp
  · rw [he, he0]; simp

/-- C9.  The root-seeking procedure exits its loop only when the
reported position is `"00"` (first conjunct, over any device and any
fuel), and run against the simulated device that moves exactly one
level per issued command it terminates from every well-formed reachable
position code within `navMeasure r` loop iterations, ending with the
device at the root position `"00"` (second conjunct; `navMeasure r` is
the explicit bound on the number of steps). -/
theorem c9_root_seeking_terminates :
    (∀ (σ : Type) (dev : DeviceFn σ) (fuel : Nat) (w : W σ) (r : List Char)
      (w' : W σ) (rf : List Char),
      goLoop dev fuel w r = some (w', rf) → rf = ['0', '0']) ∧
    (∀ r : List Char, wfCode r →
      ∃ w', goToSetupPosition simNav (navMeasure r) (start r) = some (w', ['0', '0']) ∧
        w'.dev = ['0', '0']) :=
  ⟨fun _ dev fuel w r w' rf h => goLoop_exit dev fuel w r w' rf h,
   fun _ hwf => goToSetup_sim_term hwf⟩

/-- C9, witness: from the concrete deep code `"375"` the procedure
terminates at the root within `navMeasure "375" = 9` iterations. -/
theorem c9_root_seeking_terminates_witness :
    ∃ w', goToSetupPosition simNav (navMeasure ['3', '7', '5']) (start ['3', '7', '5']) =
      some (w', ['0', '0']) ∧ w'.dev = ['0', '0'] :=
  c9_root_seeking_terminates.2 ['3', '7', '5'] (by decide)

/-- C6.  When the post-stepping verification read of `setVoltage`
returns a first token parsing to a value different from the requested
voltage, the operation aborts: the abort message is printed, no
confirmation command (`"E"` or `"G"`) is sent, the stepping is not
retried — the stepping commands appear exactly once in the trace and
every command after the verifying `"V"` read belongs to the
root-seeking navigation vocabulary — and the run still navigates back
to the Root position (final reported position `"00"`) before
returning. -/
theorem c6_setVoltage_mismatch_aborts
    (σ : Type) (dev : DeviceFn σ) (fuel : Nat) (voltage aVoltage rv : Int)
    (w0 w1 w2 : W σ) (ci ni : Nat) (tok r2 : List Char)
    (hin : voltage ∈ listOfVoltages)
    (hread : getVoltage dev fuel false w0 = .ok (w1, aVoltage))
    (hci : idxOf? listOfVoltages aVoltage = some ci)
    (hni : idxOf? listOfVoltages voltage = some ni)
    (htok : (splitWs (send dev (sendSeq dev w1 (voltageStepCmds ci ni)) "V" false).2).head?
      = some tok)
    (hparse : pyInt tok = some rv)
    (hne : voltage ≠ rv)
    (hnav : goToSetupPosition dev fuel
      (reportErr (send dev (sendSeq dev w1 (voltageStepCmds ci ni)) "V" false).1
        "Error setting the requested voltage, operation aborted.") = some (w2, r2)) :
    setVoltage dev fuel voltage w0 = .ok w2 ∧
    r2 = ['0', '0'] ∧
    "Error setting the requested voltage, operation aborted." ∈ w2.errs ∧
    ∃ navCmds, w2.sent = w1.sent ++ voltageStepCmds ci ni ++ ["V"] ++ navCmds ∧
      (∀ c ∈ navCmds, c = "?W" ∨ c = "C" ∨ c = "M0" ∨ c = "U") ∧
      "E" ∉ navCmds ∧ "G" ∉ navCmds := by
  obtain ⟨hr2, extra, eextra, hs, he, hmem⟩ := goToSetup_sent dev fuel _ _ _ hnav
  refine ⟨?_, hr2, ?_, "?W" :: extra, ?_, ?_, ?_, ?_⟩
  · simp only [setVoltage, if_pos hin, hread]
    simp only [setVoltageAfterRead, hci, hni, htok, hparse]
    rw [if_pos hne]
    simp only [hnav]
  · rw [he, reportErr_errs]
    simp
  · rw [hs, reportErr_sent, send_sent, sendSeq_sent]
  · intro c hc
    simp only [List.mem_cons] at hc
    rcases hc with rfl | hc
    · simp
    · rcases hmem c hc with h | h | h | h <;> simp [h]
  · intro hE
    simp only [List.mem_cons] at hE
    rcases hE with h | hE
    · exact absurd h (by decide)
    · rcases hmem _ hE with h | h | h | h <;> exact absurd h (by decide)
  · intro hG
    simp only [List.mem_cons] at hG
    rcases hG with h | hG
    · exact absurd h (by decide)
    · rcases hmem _ hG with h | h | h | h <;> exact absurd h (by decide)

/-- C6, witness: on the scripted device whose verification read answers
`"250"` against requested voltage 300, the aborted run sends exactly
the read-out, the four steps, the verifying `"V"` and the final
navigation query, confirms nothing, and records the abort message. -/
theorem c6_setVoltage_mismatch_aborts_witness :
    setVoltage scriptDev 1 300 (start c6Script) =
      .ok ⟨[], ["?W", "D", "E", "D", "E", "V", "U", "U", "U", "U", "V", "?W"],
           ["Error setting the requested voltage, operation aborted."]⟩ :=
  (c6_setVoltage_mismatch_aborts _ scriptDev 1 300 100 250 (start c6Script)
    ⟨[['U'], ['U'], ['U'], ['U'], ['2', '5', '0'], ['0', '0']],
     ["?W", "D", "E", "D", "E", "V"], []⟩
    ⟨[], ["?W", "D", "E", "D", "E", "V", "U", "U", "U", "U", "V", "?W"],
     ["Error setting the requested voltage, operation aborted."]⟩
    2 6 ['2', '5', '0'] ['0', '0']
    (by decide) (by decide) (by decide) (by decide) (by decide) (by decide)
    (by decide) (by decide)).1

/-- C7, counterexample.  Against the simulated setup-menu device
(`"E"` enters one submenu level, per the spec's position-code model),
starting at Root, `setIntegrationTime(10)` completes with the cursor at
the depth-3 code `"00000"`, not at Root: its command trace ends with
the verification read `"V"` and no navigation follows the write — the
operation has no `returnToRoot` flag at all. -/
theorem c7_counterexample :
    setIntegrationTime simSetup 5 10 (start ['0', '0']) =
      .ok ⟨['0', '0', '0', '0', '0'], ["?W", "E", "E", "0010", "E", "V"], []⟩ ∧
    (['0', '0', '0', '0', '0'] : List Char) ≠ ['0', '0'] := by
  decide

/-- C7, amended.  `setIntegrationTime` first navigates to Root and then
drills into the setup submenu and writes the value, but does not return
the cursor to Root afterwards: after the initial navigation its command
trace is exactly `"E"`, `"E"`, the 4-digit zero-filled value, `"E"`,
`"V"` — on the normal and on the raising path alike — so no position
query `"?W"` (the first command of any return-to-Root navigation) is
ever sent after the value is written. -/
theorem c7_setIntegrationTime_no_return
    (σ : Type) (dev : DeviceFn σ) (fuel : Nat) (t : Int) (w w1 : W σ)
    (rf : List Char) (h6 : 6 ≤ t) (h9999 : t ≤ 9999)
    (hnav : goToSetupPosition dev fuel w = some (w1, rf)) :
    (finalW (setIntegrationTime dev fuel t w)).sent =
      w1.sent ++ ["E", "E", timeLiteral t, "E", "V"] := by
  simp only [setIntegrationTime]
  rw [if_pos (And.intro h6 h9999)]
  simp only [hnav]
  split
  · simp [finalW, send_sent]
  · split
    · simp [finalW, reportErr_sent, send_sent]
    · simp [finalW, send_sent]

/-- C7, witness: on the simulated setup-menu device from Root, the
trace after the navigation query is exactly the drill-in, the
zero-filled write, the confirm and the verification read. -/
theorem c7_setIntegrationTime_no_return_witness :
    (finalW (setIntegrationTime simSetup 1 10 (start ['0', '0']))).sent =
      ["?W"] ++ ["E", "E", timeLiteral 10, "E", "V"] :=
  c7_setIntegrationTime_no_return _ simSetup 1 10 (start ['0', '0'])
    ⟨['0', '0'], ["?W"], []⟩ ['0', '0'] (by decide) (by decide) (by decide)

end PTWUnidos
